import Mathlib

/-!
Verification development for the Lighthouse spectroelectrochemistry program
(src/SpecEChemProgram.py). The acquisition core is shallowly embedded:

* numeric quantities (times, potentials, currents) are modelled over an
  arbitrary type beta with a linear order and the arithmetic the code uses,
  so every theorem stated over beta holds in particular over the rationals;
  concrete evaluations instantiate beta with the integers;
* intensity arithmetic is parameterised by a record of elementwise
  operations (subtraction, division, negation, log10), so that values such
  as IEEE infinities and NaN produced by division or log10 are carried
  through unchanged: the embedding applies the operations elementwise and
  never branches on, masks or clamps their results, exactly as the numpy
  expressions in the source do;
* the merge worker of run_measurement is a recursive function over the
  per-tick inputs it observes (the driver buffer at the top-of-loop check,
  the freshly captured raw spectrum, and the value of the live intensity
  selector at that instant);
* file outputs are modelled as the list of strings passed to write().
-/

/-! ## WaveformPlanner (start_measurement, lines 856-858) -/

/-- Electrochemical scan parameters, as validated at session start. -/
structure WaveformSpec where
  v1 : ℚ
  v2 : ℚ
  scanRate : ℚ
  samplePeriod : ℚ
  cycles : ℕ
deriving DecidableEq

/-- Validity invariant from the data model: scan rate and sample period
positive, at least one cycle, distinct vertex potentials. -/
@[reducible] def WaveformSpec.validSpec (s : WaveformSpec) : Prop :=
  0 < s.scanRate ∧ 0 < s.samplePeriod ∧ 1 ≤ s.cycles ∧ s.v1 ≠ s.v2

/-- Source line 857: self.calc_run_time = np.abs(v2_num-v1_num) / scanrate_num * 2 * cycles_num. -/
def calc_run_time (s : WaveformSpec) : ℚ :=
  |s.v2 - s.v1| / s.scanRate * 2 * (s.cycles : ℚ)

/-- Stated by the spec: total run time is the one-way sweep distance over the
scan rate, doubled (up and down), times the cycle count. -/
def spec_total_run_time (s : WaveformSpec) : ℚ :=
  2 * (s.cycles : ℚ) * (|s.v2 - s.v1| / s.scanRate)

/-! ## IntensityTransformer (run_measurement, lines 889-899) -/

/-- Elementwise arithmetic used on intensity values. Keeping the operations
abstract makes every theorem below hold for any value semantics, including
IEEE floats where division by zero yields infinities and log10 of a
non-positive number yields NaN: those values are produced by ops.div and
ops.log10 and flow to the output unaltered. -/
structure SpecOps (α : Type) where
  sub : α → α → α
  div : α → α → α
  neg : α → α
  log10 : α → α

/-- Source lines 889-899: the intensity vector written to the record, keyed
by the intensity-type string captured at start; the final else branch is the
absorbance computation. -/
def calcIntensities {α : Type} (ops : SpecOps α) (kind : String)
    (raw dark ref : List α) : List α :=
  if kind = "Raw Int." then
    raw
  else if kind = "Raw Int. - Ref" then
    List.zipWith ops.sub raw ref
  else if kind = "%T or %R" then
    List.zipWith ops.div (List.zipWith ops.sub raw dark) (List.zipWith ops.sub ref dark)
  else
    (List.zipWith ops.div (List.zipWith ops.sub raw dark) (List.zipWith ops.sub ref dark)).map
      (fun x => ops.neg (ops.log10 x))

/-- Stated by the spec: ReferenceSubtracted is raw minus reference, elementwise. -/
def spec_referenceSubtracted {α : Type} (ops : SpecOps α) (raw ref : List α) : List α :=
  List.zipWith ops.sub raw ref

/-- Stated by the spec: FractionalTransmittance is (raw - dark) / (reference - dark),
elementwise. -/
def spec_fractionalTransmittance {α : Type} (ops : SpecOps α) (raw dark ref : List α) : List α :=
  List.zipWith ops.div (List.zipWith ops.sub raw dark) (List.zipWith ops.sub ref dark)

/-- Stated by the spec: Absorbance is -log10 of the fractional transmittance,
elementwise. -/
def spec_absorbance {α : Type} (ops : SpecOps α) (raw dark ref : List α) : List α :=
  (spec_fractionalTransmittance ops raw dark ref).map (fun x => ops.neg (ops.log10 x))

/-! ## The merge worker (run_measurement, lines 864-915) -/

/-- One buffered potentiostat data point: elapsed time (column 1), working
electrode potential vf (column 2), measured current im (column 4). -/
structure PstatPoint (β : Type) where
  time : β
  vf : β
  im : β
deriving DecidableEq

/-- What the merge worker observes on one trip around its while loop: whether
the driver reports the programmed signal finished, the driver's sample buffer
as seen at the top-of-loop check, the freshly captured raw spectrum, and the
value the live intensity-type selector happens to have at that moment. -/
structure TickInput (α β : Type) where
  complete : Bool
  buffer : List (PstatPoint β)
  raw : List α
  liveSelector : String
deriving DecidableEq

/-- The per-tick data with the live selector erased: two executions differ
only in live-selector edits exactly when their tick inputs agree under this
projection. -/
def TickInput.instrumentView {α β : Type} (t : TickInput α β) :
    Bool × List (PstatPoint β) × List α :=
  (t.complete, t.buffer, t.raw)

/-- Run configuration captured at start_measurement: the snapshotted
intensity-type string (line 724), the baseline spectra, and the safety
current limit handed to set_stop_i_max (line 850, 5 A in the source). -/
structure RunConfig (α β : Type) where
  runningIntensityType : String
  darkSpec : List α
  referenceSpec : List α
  maxI : β
deriving DecidableEq

/-- One row of the primary output file body. -/
structure MergedRecord (α β : Type) where
  time : β
  pot : β
  cur : β
  intensities : List α
deriving DecidableEq

/-- Result of a run of the merge worker: the rows appended, the per-row
flush decisions, and whether the loop body crashed (None returned by
last_data_point and then subscripted). -/
structure RunOut (α β : Type) where
  records : List (MergedRecord α β)
  flushes : List Bool
  crashed : Bool
deriving DecidableEq

/-- Magnitude of a current reading. -/
def magnitude {β : Type} [LinearOrder β] [Neg β] [OfNat β 0] (x : β) : β :=
  if x < 0 then -x else x

/-- Modelled from the spec: the vendor acquisition driver is configured by
set_stop_i_max (source line 850, commented there as stopping automatically
once current exceeds the limit); its running() answer turns false once any
sample in its acquired buffer has current magnitude above the limit. The
driver itself is an external collaborator, only this stop rule is modelled. -/
def tripFired {β : Type} [LinearOrder β] [Neg β] [OfNat β 0]
    (maxI : β) (buffer : List (PstatPoint β)) : Bool :=
  buffer.any (fun p => maxI < magnitude p.im)

/-- Record assembled by one loop body from the newest buffered point
(source lines 881-907). -/
def tickRecord {α β : Type} [Inhabited β] (ops : SpecOps α) (cfg : RunConfig α β)
    (t : TickInput α β) : MergedRecord α β :=
  let p := t.buffer.getLastD ⟨default, default, default⟩
  ⟨p.time, p.vf, p.im,
    calcIntensities ops cfg.runningIntensityType t.raw cfg.darkSpec cfg.referenceSpec⟩

/-- Elapsed time a tick observes: the time field of the newest buffered point. -/
def tickTime {α β : Type} [Inhabited β] (t : TickInput α β) : β :=
  (t.buffer.getLastD ⟨default, default, default⟩).time

/-- Source lines 879-915: the while loop of run_measurement. The loop guard
consults the driver (signal complete or safety trip); the body reads the
newest buffered potentiostat point, captures a spectrum, computes the
intensity vector with the snapshotted intensity type, appends one row, and
flushes when elapsed time advanced strictly more than 30 s past the stored
last-flush value. -/
def mergeLoop {α β : Type} [Inhabited β] [LinearOrder β] [Neg β] [Sub β]
    [OfNat β 0] [OfNat β 30] (ops : SpecOps α) (cfg : RunConfig α β) :
    β → List (TickInput α β) → RunOut α β
  | _, [] => ⟨[], [], false⟩
  | lastFlush, t :: ts =>
    if t.complete || tripFired cfg.maxI t.buffer then
      ⟨[], [], false⟩
    else if t.buffer.isEmpty then
      ⟨[], [], true⟩
    else
      let p := t.buffer.getLastD ⟨default, default, default⟩
      let record : MergedRecord α β :=
        ⟨p.time, p.vf, p.im,
          calcIntensities ops cfg.runningIntensityType t.raw cfg.darkSpec cfg.referenceSpec⟩
      let doFlush := decide ((30 : β) < p.time - lastFlush)
      let rest := mergeLoop ops cfg (if doFlush then p.time else lastFlush) ts
      ⟨record :: rest.records, doFlush :: rest.flushes, rest.crashed⟩

/-- Source lines 864-915: run_measurement starts with last_file_flush = -100
(line 866) and iterates the merge loop. -/
def run_measurement {α β : Type} [Inhabited β] [LinearOrder β] [Neg β] [Sub β]
    [OfNat β 0] [OfNat β 30] [OfNat β 100] (ops : SpecOps α) (cfg : RunConfig α β)
    (ticks : List (TickInput α β)) : RunOut α β :=
  mergeLoop ops cfg (-(100 : β)) ticks

/-- The flush bookkeeping of the loop in isolation: threading the stored
last-flush value through the observed elapsed times, flushing on a strict
30-second advance (source lines 866, 911-913). -/
def lighthouse_flushTrace {β : Type} [LinearOrder β] [Sub β] [OfNat β 30] :
    β → List β → List Bool
  | _, [] => []
  | lastFlush, e :: es =>
    let doFlush := decide ((30 : β) < e - lastFlush)
    doFlush :: lighthouse_flushTrace (if doFlush then e else lastFlush) es

/-- Stated by the spec: flush whenever elapsed time has advanced at least 30
seconds since the last flush. -/
def spec_flushTrace {β : Type} [LinearOrder β] [Sub β] [OfNat β 30] :
    β → List β → List Bool
  | _, [] => []
  | lastFlush, e :: es =>
    let doFlush := decide ((30 : β) ≤ e - lastFlush)
    doFlush :: spec_flushTrace (if doFlush then e else lastFlush) es

/-- Boolean check that adjacent elements are non-decreasing. -/
def chainLeB {β : Type} [LinearOrder β] : List β → Bool
  | [] => true
  | [_] => true
  | a :: b :: rest => if a ≤ b then chainLeB (b :: rest) else false

/-- Boolean check that adjacent elements are strictly increasing. -/
def chainLtB {β : Type} [LinearOrder β] : List β → Bool
  | [] => true
  | [_] => true
  | a :: b :: rest => if a < b then chainLtB (b :: rest) else false

/-! ## Inter-tick timing (run_measurement, line 915) -/

/-- Source line 915: time.sleep(self.num_freq_s) — the worker sleeps for the
full merge period, whatever the capture before it cost. -/
def interTickSleep {β : Type} (numFreqS captureTime : β) : β :=
  numFreqS

/-- Stated by the spec: the inter-tick sleep is the merge period minus the
elapsed capture time, floored at zero. -/
def spec_interTickSleep {β : Type} [LinearOrder β] [Sub β] [OfNat β 0]
    (mergePeriod captureTime : β) : β :=
  max (mergePeriod - captureTime) 0

/-- Start instants of successive merge ticks: each tick blocks for its
capture duration and then sleeps as the code does. -/
def tickStartTimes {β : Type} [Add β] (mergePeriod : β) : β → List β → List β
  | t0, [] => [t0]
  | t0, c :: cs => t0 :: tickStartTimes mergePeriod (t0 + c + interTickSleep mergePeriod c) cs

/-- Differences of consecutive elements. -/
def listGaps {β : Type} [Sub β] (l : List β) : List β :=
  List.zipWith (fun a b => b - a) l l.tail

/-! ## start_measurement validation phase (lines 663-715) -/

/-- The slice of GUI/session state start_measurement reads while validating.
Text boxes are modelled by the result of float()/int() on their contents
(none when the text does not parse). integration_time_micros is an attribute
only ever assigned when a spectrometer is connected (lines 424, 538), so it
is an Option: none means the attribute does not exist yet. -/
structure StartState where
  running : Bool
  vertexPot1 : Option ℚ
  vertexPot2 : Option ℚ
  scanRate : Option ℚ
  numCycles : Option ℤ
  stepSize : Option ℚ
  integrationTimeMicros : Option ℚ
  specFreq : Option ℚ
  specFreqUnit : String
  specIntensityType : String
  hasReferenceSpec : Bool
  usePstat : Bool
  useSpec : Bool
  hasPotentiostat : Bool
  hasSpectrometer : Bool
deriving DecidableEq

/-- How the validation phase ends: silently (already running), with a
warning dialog and return (configuration errors), with an uncaught Python
exception, or by falling through to the side-effecting part. -/
inductive StartOutcome
  | alreadyRunning
  | configError (message : String)
  | uncaughtException (message : String)
  | proceed (collectionTimeMs : ℚ)
deriving DecidableEq

/-- Source lines 690-697: unit conversion table for the collection period. -/
def unitToMs : String → Option ℚ
  | "ms" => some 1
  | "s" => some 1000
  | "min" => some 60000
  | "hr" => some 3600000
  | _ => none

/-- Source lines 663-715: the validation phase of start_measurement, in
source order: early return when running; float()/int() of the five
potentiostat fields (line 670-678); read of self.integration_time_micros
(line 681, an AttributeError when the attribute was never assigned);
float() of the collection period (line 683-687); unit conversion (688-697,
an undefined local when the unit matches no branch); period vs integration
time (699-702); reference-spectrum requirement (704-707); connectivity of
the selected instruments (709-715). -/
def start_measurement_validate (s : StartState) : StartOutcome :=
  if s.running then .alreadyRunning
  else
    match s.vertexPot1, s.vertexPot2, s.scanRate, s.numCycles, s.stepSize with
    | some _, some _, some _, some _, some _ =>
      match s.integrationTimeMicros with
      | none => .uncaughtException "AttributeError: integration_time_micros"
      | some itMicros =>
        match s.specFreq with
        | none => .configError "Value Error: collection frequency"
        | some freq =>
          match unitToMs s.specFreqUnit with
          | none => .uncaughtException "NameError: collection_time_ms"
          | some factor =>
            let collectionTimeMs := freq * factor
            let integrationTimeMs := itMicros / 1000
            if collectionTimeMs ≤ integrationTimeMs then
              .configError "Collection Frequency Error"
            else if (s.specIntensityType != "Raw Int.") && !s.hasReferenceSpec then
              .configError "Chosen intensity type requires a reference spectrum"
            else if s.usePstat && !s.hasPotentiostat then
              .configError "Potentiostat Not Connected"
            else if s.useSpec && !s.hasSpectrometer then
              .configError "Spectrometer Not Connected"
            else .proceed collectionTimeMs
    | _, _, _, _, _ => .configError "Value Error: potentiostat parameters"

/-- Side effects start_measurement performs, keyed on how validation ended:
the first file open (line 735) and everything after it happen only on the
fall-through path. -/
def startSideEffects (s : StartState) : List String :=
  match start_measurement_validate s with
  | .proceed _ => ["open primary output file"]
  | _ => []

/-- A start request with the spectrometer selected for use (the checkbox
default) but never connected: every potentiostat field parses, yet
self.integration_time_micros was never assigned. -/
def specNotConnectedState : StartState :=
  { running := false
    vertexPot1 := some 0
    vertexPot2 := some 1
    scanRate := some 2
    numCycles := some 1
    stepSize := some 1
    integrationTimeMicros := none
    specFreq := some 5
    specFreqUnit := "s"
    specIntensityType := "Raw Int."
    hasReferenceSpec := false
    usePstat := false
    useSpec := true
    hasPotentiostat := false
    hasSpectrometer := false }

/-! ## Baseline files (start_measurement, lines 744-792) -/

/-- Source lines 749-766 and 774-790: the exact sequence of strings passed
to write() for a baseline (reference or dark) file. The first line differs
between the two files and is passed in as titleLine; the numeric values of
each data row are passed as the strings Python would format. Line 759/784
writes the column header without a trailing newline. -/
def baselineFileWrites (titleLine expName nowStr model integStr darkCorrStr nonlinStr nStr : String)
    (rows : List (String × String)) : List String :=
  [titleLine ++ "\n",
   "For experiment: " ++ expName ++ "\n",
   "Experiment began at: " ++ nowStr ++ "\n",
   "Spectrometer model: " ++ model ++ "\n",
   "Integration time (ms): " ++ integStr ++ "\n",
   "Electric dark correction enabled: " ++ darkCorrStr ++ "\n",
   "Nonlinearity correction enabled: " ++ nonlinStr ++ "\n",
   "Number of data points: " ++ nStr ++ "\n\n",
   ">>>Begin Data<<<\n",
   "Wavelength_nm,Intensity"] ++
  rows.map (fun r => r.1 ++ "," ++ r.2 ++ "\n")

/-- The bytes that end up in the file: the concatenation of all writes. -/
def baselineFileContent (titleLine expName nowStr model integStr darkCorrStr nonlinStr nStr : String)
    (rows : List (String × String)) : String :=
  String.join (baselineFileWrites titleLine expName nowStr model integStr darkCorrStr nonlinStr nStr rows)

/-- Split a character list at newlines. -/
def linesAux : List Char → List Char → List (List Char)
  | acc, [] => [acc.reverse]
  | acc, c :: cs => if c = '\n' then acc.reverse :: linesAux [] cs else linesAux (c :: acc) cs

/-- The lines of a file, as a text editor shows them. -/
def contentLines (s : String) : List String :=
  (linesAux [] s.toList).map (fun l => String.mk l)

/-! ## collect_spec_now (lines 557-625) -/

/-- Source lines 572-575: the filename dictionary of collect_spec_now. Its
second key reads "Raw. Int. - Ref", with a period after Raw, while the
selector offers "Raw Int. - Ref" (line 313). -/
def collectFilenameMap : List (String × String) :=
  [("Raw Int.", "Raw_Intensity"),
   ("Raw. Int. - Ref", "Reference_Sub_Intensity"),
   ("%T or %R", "Transmittance"),
   ("Abs", "Abs")]

/-- How the manual Collect-now save ends. -/
inductive CollectOutcome
  | noSpectrometer
  | missingReference
  | keyError
  | saved (filenameKind : String)
deriving DecidableEq

/-- Source lines 557-586: collect_spec_now up to the point where the output
file is opened: return when no spectrometer (558), warn and return when the
intensity type needs an absent reference (562), then index the filename
dictionary with the live selector value (578) — a KeyError when the
selector value is not among its keys — and only then open the file (586). -/
def collect_spec_now (hasSpectrometer hasReferenceSpec : Bool) (intensityType : String) :
    CollectOutcome :=
  if !hasSpectrometer then .noSpectrometer
  else if (intensityType != "Raw Int.") && !hasReferenceSpec then .missingReference
  else
    match collectFilenameMap.lookup intensityType with
    | none => .keyError
    | some t => .saved t

/-- Files collect_spec_now creates, keyed on how it ends: the single output
file is opened only after the dictionary lookup succeeds. -/
def collectFilesCreated (hasSpectrometer hasReferenceSpec : Bool) (intensityType : String) :
    List String :=
  match collect_spec_now hasSpectrometer hasReferenceSpec intensityType with
  | .saved t => [t]
  | _ => []

/-! ## Concrete instantiations used for evaluation -/

/-- Integer instantiation of the elementwise intensity operations, used only
to evaluate the model on concrete inputs; every general theorem above is
stated for arbitrary operations. -/
def intOps : SpecOps ℤ :=
  ⟨fun a b => a - b, fun a b => a / b, fun a => -a, fun a => a⟩

/-- A run configuration with the Raw intensity snapshot and the 5 A limit. -/
def cfgRawZ : RunConfig ℤ ℤ :=
  ⟨"Raw Int.", [], [], 5⟩

/-- A run configuration with the Abs intensity snapshot and the 5 A limit. -/
def cfgAbsZ : RunConfig ℤ ℤ :=
  ⟨"Abs", [1, 1], [3, 3], 5⟩

/-- Two merge ticks that observe the same newest potentiostat sample. -/
def ticksRepeated : List (TickInput ℤ ℤ) :=
  [⟨false, [⟨0, 0, 1⟩], [], "Raw Int."⟩,
   ⟨false, [⟨0, 0, 1⟩], [], "Raw Int."⟩]

/-- Two merge ticks whose observed sample times advance. -/
def ticksAdvancing : List (TickInput ℤ ℤ) :=
  [⟨false, [⟨0, 0, 1⟩], [], "Raw Int."⟩,
   ⟨false, [⟨0, 0, 1⟩, ⟨7, 1, 2⟩], [], "Raw Int."⟩]

/-- A driver buffer whose middle sample carries a 6 A current. -/
def bufferWithTripSample : List (PstatPoint ℤ) :=
  [⟨0, 0, 1⟩, ⟨1, 0, 6⟩, ⟨2, 0, 1⟩]

/-- A run in which the driver acquires a tripping 6 A sample between the
first and the second merge tick; every recorded sample stays at 1 A. -/
def ticksTripping : List (TickInput ℤ ℤ) :=
  [⟨false, [⟨0, 0, 1⟩], [], "Raw Int."⟩,
   ⟨false, bufferWithTripSample, [], "Raw Int."⟩]

/-- A run whose second record advances elapsed time by exactly 30 seconds. -/
def ticksExactly30 : List (TickInput ℤ ℤ) :=
  [⟨false, [⟨0, 0, 1⟩], [], "Raw Int."⟩,
   ⟨false, [⟨0, 0, 1⟩, ⟨30, 0, 1⟩], [], "Raw Int."⟩]

/-- Tick inputs for a two-tick run, live selector showing "Raw Int." both
times. -/
def ticksLiveA : List (TickInput ℤ ℤ) :=
  [⟨false, [⟨0, 0, 1⟩], [10, 20], "Raw Int."⟩,
   ⟨false, [⟨0, 0, 1⟩, ⟨40, 1, 2⟩], [30, 40], "Raw Int."⟩]

/-- The same instrument data, but the user flips the live selector to "Abs"
after the run has started. -/
def ticksLiveB : List (TickInput ℤ ℤ) :=
  [⟨false, [⟨0, 0, 1⟩], [10, 20], "Raw Int."⟩,
   ⟨false, [⟨0, 0, 1⟩, ⟨40, 1, 2⟩], [30, 40], "Abs"⟩]

/-! ## Helper lemmas about the merge loop -/

lemma listGaps_cons_cons {β : Type} [Sub β] (a b : β) (l : List β) :
    listGaps (a :: b :: l) = (b - a) :: listGaps (b :: l) := rfl

lemma tickRecord_time {α β : Type} [Inhabited β] (ops : SpecOps α) (cfg : RunConfig α β)
    (t : TickInput α β) : (tickRecord ops cfg t).time = tickTime t := rfl

/-- On a run where no tick stops the loop (signal not complete, no trip, a
nonempty buffer), the loop appends one record per tick and its flush
decisions are the strict-advance trace over the observed times. -/
lemma mergeLoop_good {α β : Type} [Inhabited β] [LinearOrder β] [Neg β] [Sub β]
    [OfNat β 0] [OfNat β 30] (ops : SpecOps α) (cfg : RunConfig α β)
    (ticks : List (TickInput α β)) (lf : β)
    (h : ∀ t ∈ ticks, (t.complete || tripFired cfg.maxI t.buffer) = false ∧
      t.buffer.isEmpty = false) :
    mergeLoop ops cfg lf ticks =
      ⟨ticks.map (tickRecord ops cfg), lighthouse_flushTrace lf (ticks.map tickTime), false⟩ := by
  induction ticks generalizing lf with
  | nil => rfl
  | cons t ts ih =>
      obtain ⟨h1, h2⟩ := h t (List.mem_cons_self _ _)
      have hrest : ∀ x ∈ ts, (x.complete || tripFired cfg.maxI x.buffer) = false ∧
          x.buffer.isEmpty = false := fun x hx => h x (List.mem_cons_of_mem _ hx)
      simp only [mergeLoop, h1, h2, Bool.false_eq_true, if_false, List.map_cons,
        lighthouse_flushTrace, ih _ hrest]
      simp [tickRecord, tickTime]

/-- With nonempty buffers throughout, the records of a run are exactly the
per-tick records of the longest prefix of ticks on which the driver still
reports running: the loop itself never tests the recorded current. -/
lemma mergeLoop_records_stop {α β : Type} [Inhabited β] [LinearOrder β] [Neg β] [Sub β]
    [OfNat β 0] [OfNat β 30] (ops : SpecOps α) (cfg : RunConfig α β)
    (ticks : List (TickInput α β)) (lf : β)
    (h : ∀ t ∈ ticks, t.buffer.isEmpty = false) :
    (mergeLoop ops cfg lf ticks).records =
      (ticks.takeWhile (fun t => !(t.complete || tripFired cfg.maxI t.buffer))).map
        (tickRecord ops cfg) := by
  induction ticks generalizing lf with
  | nil => rfl
  | cons t ts ih =>
      have h2 := (h t (List.mem_cons_self _ _))
      have hrest : ∀ x ∈ ts, x.buffer.isEmpty = false :=
        fun x hx => h x (List.mem_cons_of_mem _ hx)
      by_cases hstop : (t.complete || tripFired cfg.maxI t.buffer) = true
      · simp only [mergeLoop, List.takeWhile_cons]
        rw [hstop]
        simp
      · have h1 : (t.complete || tripFired cfg.maxI t.buffer) = false :=
          Bool.eq_false_iff.mpr hstop
        simp only [mergeLoop, h1, h2, Bool.false_eq_true, if_false, List.takeWhile_cons,
          Bool.not_false, List.map_cons, ih _ hrest]
        simp [tickRecord]

/-- The merge loop reads only the instrument-facing fields of its tick
inputs; the live selector value is never consulted. -/
lemma mergeLoop_congr_instrumentView {α β : Type} [Inhabited β] [LinearOrder β] [Neg β] [Sub β]
    [OfNat β 0] [OfNat β 30] (ops : SpecOps α) (cfg : RunConfig α β)
    (ticks1 : List (TickInput α β)) : ∀ (ticks2 : List (TickInput α β)) (lf : β),
    ticks1.map TickInput.instrumentView = ticks2.map TickInput.instrumentView →
    mergeLoop ops cfg lf ticks1 = mergeLoop ops cfg lf ticks2 := by
  induction ticks1 with
  | nil =>
      intro ticks2 lf h
      have h2 : ticks2 = [] := List.map_eq_nil_iff.mp h.symm
      rw [h2]
  | cons t ts ih =>
      intro ticks2 lf h
      cases ticks2 with
      | nil => simp at h
      | cons u us =>
          simp only [List.map_cons, List.cons.injEq] at h
          obtain ⟨hview, hrest⟩ := h
          have hc : t.complete = u.complete := congrArg Prod.fst hview
          have hb : t.buffer = u.buffer := congrArg (fun x => x.2.1) hview
          have hr : t.raw = u.raw := congrArg (fun x => x.2.2) hview
          have ihh : ∀ lf2 : β, mergeLoop ops cfg lf2 ts = mergeLoop ops cfg lf2 us :=
            fun lf2 => ih us lf2 hrest
          simp only [mergeLoop, hc, hb, hr, ihh]

/-! ## Claim theorems -/

/-- C2: the intensity vector computed on every merge tick (run_measurement
lines 889-899) matches, elementwise over the wavelength axis, the spec
formulas for each of the four intensity kinds: identity for Raw, raw minus
reference for ReferenceSubtracted, (raw - dark)/(reference - dark) for
FractionalTransmittance, and -log10 of that quotient for Absorbance.
Because the elementwise operations are abstract parameters, whatever values
division or log10 produce at degenerate inputs (IEEE infinities, NaN at
zero denominators or non-positive transmittance) appear in the recorded
output unchanged — the computation never branches on, masks or clamps
them. -/
theorem calcIntensities_matches_spec_formulas {α : Type} (ops : SpecOps α)
    (raw dark ref : List α) :
    calcIntensities ops "Raw Int." raw dark ref = raw ∧
    calcIntensities ops "Raw Int. - Ref" raw dark ref = spec_referenceSubtracted ops raw ref ∧
    calcIntensities ops "%T or %R" raw dark ref = spec_fractionalTransmittance ops raw dark ref ∧
    calcIntensities ops "Abs" raw dark ref = spec_absorbance ops raw dark ref :=
  ⟨rfl, rfl, rfl, rfl⟩

/-- C8: for every valid WaveformSpec, the run time computed at start
(line 857) equals the total-run-time formula of the spec. -/
theorem calc_run_time_eq_spec_total (s : WaveformSpec) (h : s.validSpec) :
    calc_run_time s = spec_total_run_time s := by
  unfold calc_run_time spec_total_run_time
  ring

/-- Concrete valid scan programme: 0 V to 4 V at 2 V/s, 3 cycles. -/
def scenarioSpec : WaveformSpec := ⟨0, 4, 2, 1, 3⟩

/-- C8 witness: the run-time theorem applied to a concrete valid
WaveformSpec. -/
theorem calc_run_time_eq_spec_total_witness :
    scenarioSpec.validSpec ∧ calc_run_time scenarioSpec = spec_total_run_time scenarioSpec :=
  ⟨⟨zero_lt_two, zero_lt_one, by decide, by decide⟩,
    calc_run_time_eq_spec_total scenarioSpec ⟨zero_lt_two, zero_lt_one, by decide, by decide⟩⟩

/-- C1 (amended): over a run of N merge ticks none of which stops the loop,
exactly N MergedRecords are appended, one per tick, and their elapsed times
are non-decreasing whenever the newest-sample times the ticks observe are
non-decreasing. Strict increase does not hold on the code: a tick re-reads
whatever the newest buffered potentiostat sample is, and two ticks may
observe the same sample (see the counterexample theorem). -/
theorem run_measurement_record_count_and_order {α β : Type} [Inhabited β] [LinearOrder β]
    [Neg β] [Sub β] [OfNat β 0] [OfNat β 30] [OfNat β 100]
    (ops : SpecOps α) (cfg : RunConfig α β) (ticks : List (TickInput α β))
    (hgood : ∀ t ∈ ticks, (t.complete || tripFired cfg.maxI t.buffer) = false ∧
      t.buffer.isEmpty = false)
    (hmono : chainLeB (ticks.map tickTime) = true) :
    (run_measurement ops cfg ticks).records.length = ticks.length ∧
    chainLeB ((run_measurement ops cfg ticks).records.map MergedRecord.time) = true := by
  have hrecords : (run_measurement ops cfg ticks).records = ticks.map (tickRecord ops cfg) := by
    unfold run_measurement
    rw [mergeLoop_good ops cfg ticks (-(100 : β)) hgood]
  rw [hrecords, List.map_map, List.length_map]
  refine ⟨rfl, ?_⟩
  have hcomp : MergedRecord.time ∘ tickRecord ops cfg = @tickTime α β _ := rfl
  rw [hcomp]
  exact hmono

/-- C1 witness: the amended statement evaluated on a concrete two-tick run
with advancing sample times. -/
theorem run_measurement_record_count_and_order_witness :
    ((∀ t ∈ ticksAdvancing, (t.complete || tripFired cfgRawZ.maxI t.buffer) = false ∧
        t.buffer.isEmpty = false) ∧
      chainLeB (ticksAdvancing.map tickTime) = true) ∧
    (run_measurement intOps cfgRawZ ticksAdvancing).records.length = ticksAdvancing.length ∧
    chainLeB ((run_measurement intOps cfgRawZ ticksAdvancing).records.map MergedRecord.time) = true :=
  ⟨⟨by decide, by decide⟩,
    run_measurement_record_count_and_order intOps cfgRawZ ticksAdvancing (by decide) (by decide)⟩

/-- C1 counterexample: two merge ticks observing the same newest potentiostat
sample append two records with equal elapsed time, refuting the claimed
strict increase (while the one-record-per-tick count does hold). -/
theorem run_measurement_elapsed_not_strictly_increasing :
    (run_measurement intOps cfgRawZ ticksRepeated).records.length = 2 ∧
    chainLtB ((run_measurement intOps cfgRawZ ticksRepeated).records.map MergedRecord.time) =
      false := by
  decide

/-- C3: the merge worker reads only the intensity type snapshotted at start
(running_intensity_type, line 724) and never the live selector, so two
executions that start with the same selector value and differ only in edits
to the live selector after the start produce identical outputs. -/
theorem run_measurement_ignores_live_selector {α β : Type} [Inhabited β] [LinearOrder β]
    [Neg β] [Sub β] [OfNat β 0] [OfNat β 30] [OfNat β 100] (ops : SpecOps α)
    (cfg : RunConfig α β) (ticks1 ticks2 : List (TickInput α β))
    (h : ticks1.map TickInput.instrumentView = ticks2.map TickInput.instrumentView) :
    run_measurement ops cfg ticks1 = run_measurement ops cfg ticks2 :=
  mergeLoop_congr_instrumentView ops cfg ticks1 ticks2 (-(100 : β)) h

/-- C3 witness: flipping the live selector from "Raw Int." to "Abs" after
the first tick leaves every record of an Abs-snapshot run unchanged. -/
theorem run_measurement_ignores_live_selector_witness :
    ticksLiveA.map TickInput.instrumentView = ticksLiveB.map TickInput.instrumentView ∧
    run_measurement intOps cfgAbsZ ticksLiveA = run_measurement intOps cfgAbsZ ticksLiveB :=
  ⟨by decide,
    run_measurement_ignores_live_selector intOps cfgAbsZ ticksLiveA ticksLiveB (by decide)⟩

/-- C5 (amended): the safety-trip decision is the driver's, made against
every sample in its acquired buffer (set_stop_i_max, line 850): the run's
records are the per-tick newest-sample records of the longest prefix of
ticks on which the driver still reports running, and the merge loop itself
performs no per-tick check of the recorded current. The trip can therefore
fire on a sample that is never written to any record. -/
theorem run_measurement_trip_decided_by_driver {α β : Type} [Inhabited β] [LinearOrder β]
    [Neg β] [Sub β] [OfNat β 0] [OfNat β 30] [OfNat β 100] (ops : SpecOps α)
    (cfg : RunConfig α β) (ticks : List (TickInput α β))
    (h : ∀ t ∈ ticks, t.buffer.isEmpty = false) :
    (run_measurement ops cfg ticks).records =
      (ticks.takeWhile (fun t => !(t.complete || tripFired cfg.maxI t.buffer))).map
        (tickRecord ops cfg) :=
  mergeLoop_records_stop ops cfg ticks (-(100 : β)) h

/-- C5 witness: the amended statement evaluated on the concrete tripping
run. -/
theorem run_measurement_trip_decided_by_driver_witness :
    (∀ t ∈ ticksTripping, t.buffer.isEmpty = false) ∧
    (run_measurement intOps cfgRawZ ticksTripping).records =
      (ticksTripping.takeWhile (fun t => !(t.complete || tripFired cfgRawZ.maxI t.buffer))).map
        (tickRecord intOps cfgRawZ) :=
  ⟨by decide,
    run_measurement_trip_decided_by_driver intOps cfgRawZ ticksTripping (by decide)⟩

/-- C5 counterexample: the trip ending this run is decided on the 6 A sample
the driver acquired between ticks, while the single recorded record carries
1 A and every recorded current magnitude stays within the 5 A limit — the
decision was made against a separately acquired sample, not the recorded
one. -/
theorem run_measurement_trip_on_unrecorded_sample :
    tripFired (5 : ℤ) bufferWithTripSample = true ∧
    (run_measurement intOps cfgRawZ ticksTripping).records.map MergedRecord.cur = [1] ∧
    ((run_measurement intOps cfgRawZ ticksTripping).records.all
      (fun r => decide (magnitude r.cur ≤ 5))) = true := by
  decide

/-- C6 (amended): on a run where no tick stops the loop, the stream is
flushed on a tick iff the observed elapsed time exceeds the stored
last-flush value by strictly more than 30 seconds, the stored value
starting at -100 (so the first record of a run always flushes); an advance
of exactly 30 seconds does not flush (see the counterexample theorem). -/
theorem run_measurement_flush_strictly_over_30 {α β : Type} [Inhabited β] [LinearOrder β]
    [Neg β] [Sub β] [OfNat β 0] [OfNat β 30] [OfNat β 100] (ops : SpecOps α)
    (cfg : RunConfig α β) (ticks : List (TickInput α β))
    (hgood : ∀ t ∈ ticks, (t.complete || tripFired cfg.maxI t.buffer) = false ∧
      t.buffer.isEmpty = false) :
    (run_measurement ops cfg ticks).flushes =
      lighthouse_flushTrace (-(100 : β)) (ticks.map tickTime) := by
  unfold run_measurement
  rw [mergeLoop_good ops cfg ticks (-(100 : β)) hgood]

/-- C6 witness: the flush-policy theorem evaluated on the concrete run whose
records sit at elapsed times 0 and 30. -/
theorem run_measurement_flush_strictly_over_30_witness :
    (∀ t ∈ ticksExactly30, (t.complete || tripFired cfgRawZ.maxI t.buffer) = false ∧
      t.buffer.isEmpty = false) ∧
    (run_measurement intOps cfgRawZ ticksExactly30).flushes =
      lighthouse_flushTrace (-(100 : ℤ)) (ticksExactly30.map tickTime) :=
  ⟨by decide,
    run_measurement_flush_strictly_over_30 intOps cfgRawZ ticksExactly30 (by decide)⟩

/-- C6 counterexample: the second record advances elapsed time by exactly 30
seconds past the flush made at time 0; the code does not flush there, while
the claimed at-least-30 rule (spec_flushTrace) says it must. -/
theorem run_measurement_no_flush_at_exactly_30 :
    (run_measurement intOps cfgRawZ ticksExactly30).records.map MergedRecord.time = [0, 30] ∧
    (run_measurement intOps cfgRawZ ticksExactly30).flushes = [true, false] ∧
    spec_flushTrace (-(100 : ℤ)) [0, 30] = [true, true] := by
  decide

/-- C7 (amended): the worker sleeps for the full merge period after every
tick (line 915), so consecutive tick start instants are separated by the
capture time plus the merge period — not by the merge period alone as the
claimed compensating sleep would give. -/
theorem tickStartTimes_gaps {β : Type} [AddCommGroup β] (P t0 : β) (cs : List β) :
    listGaps (tickStartTimes P t0 cs) = cs.map (fun c => c + P) := by
  induction cs generalizing t0 with
  | nil => rfl
  | cons c cs ih =>
      have hcons : ∀ (u : β) (l : List β),
          tickStartTimes P u l = u :: (tickStartTimes P u l).tail := by
        intro u l
        cases l <;> rfl
      have hstep : tickStartTimes P t0 (c :: cs) =
          t0 :: tickStartTimes P (t0 + c + interTickSleep P c) cs := rfl
      rw [hstep, hcons (t0 + c + interTickSleep P c) cs, listGaps_cons_cons,
        ← hcons (t0 + c + interTickSleep P c) cs, ih]
      have harith : t0 + c + interTickSleep P c - t0 = c + P := by
        show t0 + c + P - t0 = c + P
        rw [add_assoc, add_sub_cancel_left]
      rw [harith, List.map_cons]

/-- C7 counterexample: with a 5 s merge period and a 1 s capture, the code
sleeps the full 5 s where the claimed rule sleeps 4 s. -/
theorem interTickSleep_full_period :
    interTickSleep (5 : ℤ) 1 = 5 ∧ spec_interTickSleep (5 : ℤ) 1 = 4 ∧
    interTickSleep (5 : ℤ) 1 ≠ spec_interTickSleep (5 : ℤ) 1 := by
  decide

/-- C4 (code bug): a start request with the spectrometer selected for use
but never connected is a validation failure the claim covers, yet the code
reads self.integration_time_micros (line 681) before the spectrometer
connectivity check (line 713) and that attribute is only ever assigned on
connection, so the request dies with an uncaught AttributeError instead of
a reported ConfigurationError. The session does stay Idle and no file or
hardware side effect occurs. -/
theorem start_specNotConnected_uncaught :
    specNotConnectedState.useSpec = true ∧
    specNotConnectedState.hasSpectrometer = false ∧
    start_measurement_validate specNotConnectedState =
      StartOutcome.uncaughtException "AttributeError: integration_time_micros" ∧
    startSideEffects specNotConnectedState = [] ∧
    specNotConnectedState.running = false :=
  ⟨rfl, rfl, rfl, rfl, rfl⟩

/-- Concrete data row for a one-wavelength baseline file. -/
def oneRowBaseline : List (String × String) := [("400.1", "120.0")]

/-- A dark-spectrum file as start_measurement writes it for one wavelength. -/
def darkFileOneRow : String :=
  baselineFileContent "Ocean Optics spectrometer dark spectrum generated by Lighthouse"
    "Experiment" "2026-02-16T12-00-00" "USB2000" "3" "True" "True" "1" oneRowBaseline

/-- C9 (code bug): the baseline writers end the sentinel line but write the
column header "Wavelength_nm,Intensity" without a trailing newline
(lines 759 and 784), so the first data row is glued onto the header line:
the written file has no line consisting of the column header alone, and
instead contains the fused line below. -/
theorem baseline_column_header_not_own_line :
    ("Wavelength_nm,Intensity" ∉ contentLines darkFileOneRow) ∧
    ("Wavelength_nm,Intensity400.1,120.0" ∈ contentLines darkFileOneRow) ∧
    (">>>Begin Data<<<" ∈ contentLines darkFileOneRow) := by
  decide

/-- C10: with "Raw Int. - Ref" selected and a reference spectrum stored, the
manual Collect-now save passes its precondition check but the filename
dictionary only knows the misspelled key "Raw. Int. - Ref", so the lookup
raises KeyError (line 578) before the output file is opened (line 586):
no file is created. -/
theorem collect_spec_now_keyError_before_file :
    collect_spec_now true true "Raw Int. - Ref" = CollectOutcome.keyError ∧
    collectFilesCreated true true "Raw Int. - Ref" = [] :=
  ⟨rfl, rfl⟩
